import Mathlib

/-!
Shallow embedding of the adventure-game core in `src/main.py`.

Python dictionaries (`Game.rooms`, `Room.exits`) are modelled as ordered
association lists (`List (String × _)`): lookup returns the first binding,
and assignment (`d[k] = v`) replaces the first binding in place when `k`
is present and appends otherwise, matching insertion-ordered dict
semantics.  The external OpenAI client is modelled as an oracle list of
responses consumed in order; an empty oracle behaves as a failed call
(an exception in the Python code).  Console output (print statements)
is outside the model; functions return the strings the game hands to the
presentation layer.
-/

set_option autoImplicit false

namespace Mud

/-- The apostrophe character, used in several of the fixed game messages. -/
def apos : String := String.singleton (Char.ofNat 39)

/-- Python `str.lower()`: lowercase each character (the game only ever
compares ASCII command text). -/
def lowerStr (s : String) : String := String.mk (s.data.map Char.toLower)

/-- Python `str.upper()`: uppercase each character. -/
def upperStr (s : String) : String := String.mk (s.data.map Char.toUpper)

/-- Python `str.split()` with no separator: split on runs of whitespace,
discarding empty chunks.  `acc` holds the current chunk reversed. -/
def splitWS : List Char → List Char → List String
  | [], acc => if acc.isEmpty then [] else [String.mk acc.reverse]
  | c :: cs, acc =>
      if c.isWhitespace then
        (if acc.isEmpty then [] else [String.mk acc.reverse]) ++ splitWS cs []
      else splitWS cs (c :: acc)

/-- `Item` dataclass of main.py: name, description, can_take (default true). -/
structure Item where
  name : String
  description : String
  can_take : Bool := true
deriving DecidableEq

/-- `Room` dataclass of main.py.  `exits` maps a direction label to a room id. -/
structure Room where
  name : String
  description : String
  items : List Item
  exits : List (String × String)
  visited : Bool := false
  hints : List String := []
  atmosphere : String := ""
  story_context : String := ""
  is_goal : Bool := false
deriving DecidableEq

/-- Lookup in an insertion-ordered dict modelled as an association list:
the first binding of the key wins (`d[k]` / `k in d` in Python). -/
def lookupA {α : Type} (d : List (String × α)) (k : String) : Option α :=
  match d with
  | [] => none
  | (k1, v) :: rest => if k1 = k then some v else lookupA rest k

/-- Dict assignment `d[k] = v`: replace the first binding of `k` in place,
or append a new binding when `k` is absent. -/
def dictInsert {α : Type} (d : List (String × α)) (k : String) (v : α) :
    List (String × α) :=
  match d with
  | [] => [(k, v)]
  | (k1, v1) :: rest =>
      if k1 = k then (k, v) :: rest else (k1, v1) :: dictInsert rest k v

/-- Whole game state: the fields of the `Game` class together with the
`Player` object it owns (inventory and current room id). -/
structure Game where
  rooms : List (String × Room)
  story_theme : String
  goal_description : String
  current_path_depth : Nat
  max_path_depth : Nat := 10
  player_name : String
  inventory : List Item
  current_room : String
deriving DecidableEq

/-- A structured room-generation response: the JSON object `generate_room`
expects from the client, after the `room_data.get` defaults are applied. -/
structure RoomData where
  name : String
  description : String
  atmosphere : String
  items : List Item
  hints : List String
  story_context : String
  suggested_exits : List (String × String)
  is_goal : Bool
deriving DecidableEq

/-- One external room-generation call either yields structured data or
fails (any exception: transport error, malformed JSON, missing field). -/
abbrev RoomResp := Except Unit RoomData

/-- A structured theme-generation response. -/
structure ThemeData where
  theme : String
  goal : String
  backstory : String
deriving DecidableEq

abbrev ThemeResp := Except Unit ThemeData

abbrev HintResp := Except Unit String

/-- Consume the next response from an oracle list; an exhausted oracle
acts as a failing call. -/
def nextResp {α : Type} (oracle : List (Except Unit α)) :
    Except Unit α × List (Except Unit α) :=
  match oracle with
  | [] => (.error (), [])
  | r :: rest => (r, rest)

/-- `create_fallback_room`: the fixed template stored when generation
fails; `visited` and `is_goal` are the dataclass defaults (false). -/
def create_fallback_room (room_id : String) : Room :=
  { name := "Mysterious Chamber"
    description := "A mysterious chamber with shifting walls."
    items := []
    exits := [("forward", room_id ++ "_forward"), ("back", "start")]
    hints := ["The path ahead seems to pulse with energy."]
    atmosphere := "The air crackles with unknown forces."
    story_context := "A mysterious point in your journey." }

/-- `generate_room`: on a successful response build a `Room` whose exit
targets are synthesized as `room_id ++ "_" ++ direction`; on any failure
return the fallback room.  The `previous_room` argument of the Python
function only feeds the prompt text, which is outside the model. -/
def generate_room (room_id : String) (resp : RoomResp) : Room :=
  match resp with
  | .ok d =>
      { name := d.name
        description := d.description
        items := d.items
        exits := d.suggested_exits.map (fun p => (p.1, room_id ++ "_" ++ p.1))
        visited := false
        hints := d.hints
        atmosphere := d.atmosphere
        story_context := d.story_context
        is_goal := d.is_goal }
  | .error _ => create_fallback_room room_id

/-- `generate_story_theme`: one client call; on success record theme and
goal, on failure the fixed defaults.  Returns `(theme, goal)` and the
remaining oracle. -/
def generate_story_theme (oracle : List ThemeResp) :
    (String × String) × List ThemeResp :=
  (match (nextResp oracle).1 with
   | .ok d => (d.theme, d.goal)
   | .error _ =>
      ("A mysterious adventure", "Discover the truth and find your way home"),
   (nextResp oracle).2)

/-- `initialize_game`: generate the theme, realize the `start` room
(without touching `current_path_depth`), create the player at `start`. -/
def init_game (themeOracle : List ThemeResp) (roomOracle : List RoomResp) :
    Game × List ThemeResp × List RoomResp :=
  ({ rooms := dictInsert [] "start"
                (generate_room "start" (nextResp roomOracle).1)
     story_theme := (generate_story_theme themeOracle).1.1
     goal_description := (generate_story_theme themeOracle).1.2
     current_path_depth := 0
     max_path_depth := 10
     player_name := "Adventurer"
     inventory := []
     current_room := "start" },
   (generate_story_theme themeOracle).2, (nextResp roomOracle).2)

/-- The refusal text returned for a direction with no exit. -/
def cantGoMsg : String := "You can" ++ apos ++ "t go that way."

/-- The parts of the `cmd_look` rendering that are shown on every look:
header, description, atmosphere, blank line, item lines (when there are
items), and the exits line. -/
def look_base_parts (room : Room) : List String :=
  ["\n" ++ upperStr room.name ++ "\n", room.description,
   "\n" ++ room.atmosphere, "\n"]
  ++ (if room.items = [] then []
      else [String.intercalate "\n"
              (room.items.map (fun i => "There is " ++ i.name ++ " here."))])
  ++ ["\n" ++ (if room.exits = [] then "There are no obvious exits."
               else "Exits: " ++
                    String.intercalate ", " (room.exits.map (fun p => p.1)))]

/-- The hint section a first look appends: a header line then one line
per hint, and nothing when the hint list is empty. -/
def look_hint_parts (room : Room) : List String :=
  if room.hints = [] then []
  else "\nAs you take in your surroundings, you notice:"
       :: room.hints.map (fun h => "- " ++ h)

/-- `cmd_look`: render the current room; on the first look also append
the hint section and flip `visited` to true in the stored room.  `none`
models the KeyError raised when the current room id is not in `rooms`. -/
def cmd_look (g : Game) : Option (String × Game) :=
  match lookupA g.rooms g.current_room with
  | none => none
  | some room =>
      if room.visited then
        some (String.intercalate "\n" (look_base_parts room), g)
      else
        some (String.intercalate "\n" (look_base_parts room ++ look_hint_parts room),
              { g with rooms := dictInsert g.rooms g.current_room
                                  { room with visited := true } })

/-- The goal-completion text template of `handle_goal_room`. -/
def goal_message (descr goal : String) : String :=
  "\n" ++ descr ++ "\n\nCongratulations! " ++ goal
  ++ "\n\nYou have completed your quest! Would you like to:\n1. Continue exploring\n2. Start a new adventure (type "
  ++ apos ++ "quit" ++ apos ++ " and restart)\n"

/-- `handle_goal_room`: the goal-completion message, built from the
current room description and the session goal description. -/
def handle_goal_room (g : Game) : Option String :=
  match lookupA g.rooms g.current_room with
  | none => none
  | some room => some (goal_message room.description g.goal_description)

/-- The realization step inside `handle_room_transition` (lines 192-195):
if the target id is already in `rooms` do nothing, otherwise increment
`current_path_depth`, make one generation call and store the resulting
room (the generated room on success, the fallback room on failure). -/
def realize_room (g : Game) (oracle : List RoomResp) (next_room_id : String) :
    Game × List RoomResp :=
  if (lookupA g.rooms next_room_id).isSome then (g, oracle)
  else
    ({ g with current_path_depth := g.current_path_depth + 1,
              rooms := dictInsert g.rooms next_room_id
                         (generate_room next_room_id (nextResp oracle).1) },
     (nextResp oracle).2)

/-- `handle_room_transition`: refuse when the direction has no exit;
otherwise realize the target room if needed, move the player there, and
return the goal-completion message when the entered room is a goal room,
else the `cmd_look` rendering. -/
def handle_room_transition (g : Game) (oracle : List RoomResp)
    (direction : String) : Option (String × Game × List RoomResp) :=
  match lookupA g.rooms g.current_room with
  | none => none
  | some current_room =>
      match lookupA current_room.exits direction with
      | none => some (cantGoMsg, g, oracle)
      | some next_room_id =>
          let g2 := { (realize_room g oracle next_room_id).1 with
                      current_room := next_room_id }
          match lookupA g2.rooms next_room_id with
          | none => none
          | some entered =>
              if entered.is_goal then
                match handle_goal_room g2 with
                | none => none
                | some msg =>
                    some (msg, g2, (realize_room g oracle next_room_id).2)
              else
                match cmd_look g2 with
                | none => none
                | some p =>
                    some (p.1, p.2, (realize_room g oracle next_room_id).2)

/-- `cmd_inventory`: list the held items. -/
def cmd_inventory (g : Game) : String :=
  if g.inventory = [] then "You are empty-handed."
  else "You are carrying:\n" ++
       String.intercalate "\n" (g.inventory.map (fun i => "- " ++ i.name))

/-- `cmd_take`: find the first room item whose lowercased name equals the
given name; move it to the inventory when takable, refuse when not, and
report absence when nothing matches. -/
def cmd_take (g : Game) (item_name : String) : Option (String × Game) :=
  match lookupA g.rooms g.current_room with
  | none => none
  | some room =>
      match room.items.find? (fun i => lowerStr i.name = item_name) with
      | none => some ("I don" ++ apos ++ "t see a " ++ item_name ++ " here.", g)
      | some item =>
          if item.can_take then
            some ("Taken: " ++ item.name,
                  { g with inventory := g.inventory ++ [item],
                           rooms := dictInsert g.rooms g.current_room
                                      { room with items := room.items.erase item } })
          else
            some ("You can" ++ apos ++ "t take the " ++ item.name ++ ".", g)

/-- `cmd_help`: the static command listing. -/
def cmd_help : String :=
  "Available commands:\n        - look: Examine your surroundings in detail\n        - inventory (or i): Check your inventory\n        - take [item]: Pick up an item\n        - examine [item/direction]: Look at something more closely\n        - n/s/e/w: Move in a direction\n        - hint: Get a contextual hint about what to try next\n        - help: Show this help message\n        - quit: Exit the game"

/-- The fixed hint returned when the hint-generation call fails. -/
def fallbackHintMsg : String :=
  "You might want to examine your surroundings more carefully..."

/-- `get_contextual_hint`: read the current room (KeyError when absent),
make one generation call, and return its text, or the fixed fallback
string on failure. -/
def get_contextual_hint (g : Game) (oracle : List HintResp) :
    Option (String × List HintResp) :=
  match lookupA g.rooms g.current_room with
  | none => none
  | some _room =>
      match (nextResp oracle).1 with
      | .ok s => some (s, (nextResp oracle).2)
      | .error _ => some (fallbackHintMsg, (nextResp oracle).2)

/-- `cmd_examine`: search the inventory, then the room items, for a
case-insensitive name match and return its description. -/
def cmd_examine (g : Game) (target : String) : Option String :=
  match lookupA g.rooms g.current_room with
  | none => none
  | some room =>
      match g.inventory.find? (fun i => lowerStr i.name = lowerStr target) with
      | some i => some i.description
      | none =>
          match room.items.find? (fun i => lowerStr i.name = lowerStr target) with
          | some i => some i.description
          | none =>
              some ("You don" ++ apos ++ "t see anything special about the "
                    ++ target ++ ".")

/-- The list of movement verbs accepted by `process_command`. -/
def moveVerbs : List String :=
  ["n", "s", "e", "w", "north", "south", "east", "west"]

/-- Tokenization of `process_command`: lowercase, split on whitespace. -/
def tokenize (command : String) : List String :=
  splitWS (lowerStr command).data []

/-- `process_command`: dispatch on the first token.  Movement verbs are
handed to `cmd_move`/`handle_room_transition` verbatim.  The result
carries the updated game state and both oracles. -/
def process_command (g : Game) (oracle : List RoomResp)
    (hintOracle : List HintResp) (command : String) :
    Option (String × Game × List RoomResp × List HintResp) :=
  match tokenize command with
  | [] => some ("Please enter a command.", g, oracle, hintOracle)
  | verb :: rest =>
      let noun := rest.headD ""
      if verb = "look" then
        (cmd_look g).map (fun p => (p.1, p.2, oracle, hintOracle))
      else if verb = "inventory" ∨ verb = "i" then
        some (cmd_inventory g, g, oracle, hintOracle)
      else if verb ∈ moveVerbs then
        (handle_room_transition g oracle verb).map
          (fun p => (p.1, p.2.1, p.2.2, hintOracle))
      else if verb = "take" ∧ noun ≠ "" then
        (cmd_take g noun).map (fun p => (p.1, p.2, oracle, hintOracle))
      else if verb = "help" then
        some (cmd_help, g, oracle, hintOracle)
      else if verb = "hint" then
        (get_contextual_hint g hintOracle).map
          (fun p => (p.1, g, oracle, p.2))
      else if verb = "examine" ∧ noun ≠ "" then
        (cmd_examine g noun).map (fun s => (s, g, oracle, hintOracle))
      else
        some ("I don" ++ apos ++ "t understand that command.", g, oracle,
              hintOracle)

/-! ### Concrete data used by witnesses and counterexamples -/

/-- A takable demo item. -/
def lamp : Item := { name := "Lamp", description := "A shiny lamp." }

/-- A non-takable demo item. -/
def boulder : Item :=
  { name := "Boulder", description := "Far too heavy.", can_take := false }

/-- A demo starting room with one realized exit (`n`), one exit to a goal
room (`g`), and one unrealized exit (`u`). -/
def startRoom : Room :=
  { name := "Start"
    description := "The starting chamber."
    items := [lamp, boulder]
    exits := [("n", "start_n"), ("g", "goalroom"), ("u", "start_u")]
    visited := false
    hints := ["A faint draft comes from the north."]
    atmosphere := "Quiet."
    story_context := "the beginning" }

/-- A realized, already-visited neighbour room. -/
def northRoom : Room :=
  { name := "North Room"
    description := "A bare room."
    items := []
    exits := []
    visited := true }

/-- A realized goal room. -/
def goalRoom : Room :=
  { name := "Throne Room"
    description := "A throne stands here."
    items := []
    exits := [("back", "start")]
    is_goal := true }

/-- A demo game state sitting in `startRoom` at depth 3. -/
def demoGame : Game :=
  { rooms := [("start", startRoom), ("start_n", northRoom),
              ("goalroom", goalRoom)]
    story_theme := "a demo theme"
    goal_description := "the demo goal"
    current_path_depth := 3
    player_name := "Adventurer"
    inventory := []
    current_room := "start" }

/-! ### Association-list dictionary lemmas -/

theorem lookupA_dictInsert_self {α : Type} (d : List (String × α))
    (k : String) (v : α) : lookupA (dictInsert d k v) k = some v := by
  induction d with
  | nil => simp [dictInsert, lookupA]
  | cons p rest ih =>
      obtain ⟨k1, v1⟩ := p
      by_cases h : k1 = k
      · simp [dictInsert, h, lookupA]
      · simp [dictInsert, h, lookupA, ih]

theorem lookupA_dictInsert_ne {α : Type} (d : List (String × α))
    (k k2 : String) (v : α) (h : k ≠ k2) :
    lookupA (dictInsert d k v) k2 = lookupA d k2 := by
  induction d with
  | nil => simp [dictInsert, lookupA, h]
  | cons p rest ih =>
      obtain ⟨k1, v1⟩ := p
      by_cases h1 : k1 = k
      · subst h1
        simp [dictInsert, lookupA, h]
      · simp only [dictInsert, if_neg h1, lookupA]
        by_cases h2 : k1 = k2
        · simp [h2]
        · simp [h2, ih]

theorem isSome_lookupA_dictInsert {α : Type} (d : List (String × α))
    (k k2 : String) (v : α) (h : (lookupA d k2).isSome) :
    (lookupA (dictInsert d k v) k2).isSome := by
  by_cases hk : k = k2
  · subst hk
    simp [lookupA_dictInsert_self]
  · rwa [lookupA_dictInsert_ne d k k2 v hk]

/-! ### Lemmas about `realize_room` -/

theorem realize_room_of_present (g : Game) (oracle : List RoomResp)
    (nid : String) (r : Room) (h : lookupA g.rooms nid = some r) :
    realize_room g oracle nid = (g, oracle) := by
  simp [realize_room, h]

theorem realize_room_of_absent (g : Game) (oracle : List RoomResp)
    (nid : String) (h : lookupA g.rooms nid = none) :
    realize_room g oracle nid =
      ({ g with current_path_depth := g.current_path_depth + 1,
                rooms := dictInsert g.rooms nid
                           (generate_room nid (nextResp oracle).1) },
       (nextResp oracle).2) := by
  simp [realize_room, h]

theorem realize_room_lookup_self (g : Game) (oracle : List RoomResp)
    (nid : String) :
    (lookupA (realize_room g oracle nid).1.rooms nid).isSome := by
  rcases h : lookupA g.rooms nid with _ | r
  · rw [realize_room_of_absent g oracle nid h]
    simp [lookupA_dictInsert_self]
  · rw [realize_room_of_present g oracle nid r h]
    simp [h]

theorem realize_room_current_room (g : Game) (oracle : List RoomResp)
    (nid : String) :
    (realize_room g oracle nid).1.current_room = g.current_room := by
  unfold realize_room
  split <;> simp

theorem realize_room_goal_description (g : Game) (oracle : List RoomResp)
    (nid : String) :
    (realize_room g oracle nid).1.goal_description = g.goal_description := by
  unfold realize_room
  split <;> simp

theorem realize_room_inventory (g : Game) (oracle : List RoomResp)
    (nid : String) :
    (realize_room g oracle nid).1.inventory = g.inventory := by
  unfold realize_room
  split <;> simp

theorem realize_room_mono (g : Game) (oracle : List RoomResp)
    (nid k : String) (h : (lookupA g.rooms k).isSome) :
    (lookupA (realize_room g oracle nid).1.rooms k).isSome := by
  unfold realize_room
  split
  · exact h
  · exact isSome_lookupA_dictInsert _ _ _ _ h

/-! ### Lemmas about `cmd_look` -/

theorem look_base_parts_set_visited (room : Room) :
    look_base_parts { room with visited := true } = look_base_parts room := rfl

theorem cmd_look_of_not_visited (g : Game) (room : Room)
    (hcur : lookupA g.rooms g.current_room = some room)
    (hv : room.visited = false) :
    cmd_look g = some
      (String.intercalate "\n" (look_base_parts room ++ look_hint_parts room),
       { g with rooms := dictInsert g.rooms g.current_room
                           { room with visited := true } }) := by
  simp [cmd_look, hcur, hv]

theorem cmd_look_of_visited (g : Game) (room : Room)
    (hcur : lookupA g.rooms g.current_room = some room)
    (hv : room.visited = true) :
    cmd_look g = some (String.intercalate "\n" (look_base_parts room), g) := by
  simp [cmd_look, hcur, hv]

theorem cmd_look_some (g : Game) (room : Room)
    (hcur : lookupA g.rooms g.current_room = some room) :
    ∃ msg g3, cmd_look g = some (msg, g3)
      ∧ g3.current_path_depth = g.current_path_depth
      ∧ g3.current_room = g.current_room
      ∧ g3.inventory = g.inventory
      ∧ g3.goal_description = g.goal_description
      ∧ (∀ k, (lookupA g.rooms k).isSome → (lookupA g3.rooms k).isSome) := by
  rcases hv : room.visited with _ | _
  · refine ⟨_, _, cmd_look_of_not_visited g room hcur hv, ?_, ?_, ?_, ?_, ?_⟩
      <;> simp
    intro k hk
    exact isSome_lookupA_dictInsert _ _ _ _ hk
  · exact ⟨_, _, cmd_look_of_visited g room hcur hv, rfl, rfl, rfl, rfl,
      fun k hk => hk⟩

/-! ### Lemmas about `handle_room_transition` -/

theorem handle_room_transition_refused (g : Game) (oracle : List RoomResp)
    (direction : String) (cur : Room)
    (hcur : lookupA g.rooms g.current_room = some cur)
    (hdir : lookupA cur.exits direction = none) :
    handle_room_transition g oracle direction = some (cantGoMsg, g, oracle) := by
  simp [handle_room_transition, hcur, hdir]

theorem handle_room_transition_goal_case (g : Game) (oracle : List RoomResp)
    (direction : String) (cur entered : Room) (nid : String)
    (hcur : lookupA g.rooms g.current_room = some cur)
    (hdir : lookupA cur.exits direction = some nid)
    (hent : lookupA (realize_room g oracle nid).1.rooms nid = some entered)
    (hgoal : entered.is_goal = true) :
    handle_room_transition g oracle direction =
      some (goal_message entered.description
              (realize_room g oracle nid).1.goal_description,
            { (realize_room g oracle nid).1 with current_room := nid },
            (realize_room g oracle nid).2) := by
  simp [handle_room_transition, hcur, hdir, hent, hgoal, handle_goal_room]

theorem handle_room_transition_nongoal_case (g : Game) (oracle : List RoomResp)
    (direction : String) (cur entered : Room) (nid : String)
    (hcur : lookupA g.rooms g.current_room = some cur)
    (hdir : lookupA cur.exits direction = some nid)
    (hent : lookupA (realize_room g oracle nid).1.rooms nid = some entered)
    (hgoal : entered.is_goal = false) :
    handle_room_transition g oracle direction =
      (cmd_look { (realize_room g oracle nid).1 with current_room := nid }).map
        (fun p => (p.1, p.2, (realize_room g oracle nid).2)) := by
  obtain ⟨msg, g3, hlook, _⟩ :=
    cmd_look_some { (realize_room g oracle nid).1 with current_room := nid }
      entered (by simpa using hent)
  simp [handle_room_transition, hcur, hdir, hent, hgoal, hlook]

theorem transition_some (g : Game) (oracle : List RoomResp) (direction : String)
    (cur : Room) (nid : String)
    (hcur : lookupA g.rooms g.current_room = some cur)
    (hdir : lookupA cur.exits direction = some nid) :
    ∃ msg g1, handle_room_transition g oracle direction
        = some (msg, g1, (realize_room g oracle nid).2)
      ∧ g1.current_room = nid
      ∧ g1.current_path_depth = (realize_room g oracle nid).1.current_path_depth
      ∧ g1.inventory = (realize_room g oracle nid).1.inventory
      ∧ (∀ k, (lookupA (realize_room g oracle nid).1.rooms k).isSome →
           (lookupA g1.rooms k).isSome) := by
  obtain ⟨entered, hent⟩ :=
    Option.isSome_iff_exists.mp (realize_room_lookup_self g oracle nid)
  rcases hgoal : entered.is_goal with _ | _
  · obtain ⟨msg, g3, hlook, hdep, hcr, hinv, _, hmono⟩ :=
      cmd_look_some { (realize_room g oracle nid).1 with current_room := nid }
        entered (by simpa using hent)
    refine ⟨msg, g3, ?_, ?_, ?_, ?_, ?_⟩
    · rw [handle_room_transition_nongoal_case g oracle direction cur entered nid
            hcur hdir hent hgoal, hlook]
      rfl
    · simpa using hcr
    · simpa using hdep
    · simpa using hinv
    · intro k hk
      exact hmono k (by simpa using hk)
  · refine ⟨_, _, handle_room_transition_goal_case g oracle direction cur
      entered nid hcur hdir hent hgoal, rfl, by simp, by simp, ?_⟩
    intro k hk
    simpa using hk

theorem handle_room_transition_mono (g : Game) (oracle : List RoomResp)
    (direction : String) (msg : String) (g1 : Game) (o1 : List RoomResp)
    (hrun : handle_room_transition g oracle direction = some (msg, g1, o1))
    (k : String) (hk : (lookupA g.rooms k).isSome) :
    (lookupA g1.rooms k).isSome := by
  rcases hcur : lookupA g.rooms g.current_room with _ | cur
  · simp [handle_room_transition, hcur] at hrun
  · rcases hdir : lookupA cur.exits direction with _ | nid
    · rw [handle_room_transition_refused g oracle direction cur hcur hdir]
        at hrun
      obtain ⟨-, hg, -⟩ := by simpa using hrun
      rw [← hg]
      exact hk
    · obtain ⟨m2, g2, heq, -, -, -, hmono⟩ :=
        transition_some g oracle direction cur nid hcur hdir
      rw [hrun] at heq
      obtain ⟨-, hg, -⟩ := by simpa using heq
      rw [hg]
      exact hmono k (realize_room_mono g oracle nid k hk)

/-! ### Claim theorems -/

/-- C3: realization is idempotent.  Running the realization step a second
time for the same id returns the state and oracle of the first run
unchanged: the stored room is identical, the path depth is not
incremented again and no further generation response is consumed.  In
particular (second conjunct) realizing an id that is already in the
rooms map changes nothing and consumes no response. -/
theorem c3_realization_idempotent :
    (∀ (g : Game) (oracle : List RoomResp) (nid : String),
       realize_room (realize_room g oracle nid).1
         (realize_room g oracle nid).2 nid = realize_room g oracle nid)
    ∧ (∀ (g : Game) (oracle : List RoomResp) (nid : String) (r : Room),
         lookupA g.rooms nid = some r →
         realize_room g oracle nid = (g, oracle)) := by
  constructor
  · intro g oracle nid
    obtain ⟨entered, hent⟩ :=
      Option.isSome_iff_exists.mp (realize_room_lookup_self g oracle nid)
    rw [realize_room_of_present _ _ _ entered hent]
  · exact fun g oracle nid r h => realize_room_of_present g oracle nid r h

/-- C3 witness: realizing the already-present id start_n in the demo game
is the identity on state and oracle. -/
theorem c3_witness : realize_room demoGame [] "start_n" = (demoGame, []) :=
  c3_realization_idempotent.2 demoGame [] "start_n" northRoom rfl

/-- C5: a move in a direction that is not a key of the current room's
exits returns exactly the refusal text and the unchanged game state
(same current room id, rooms map, path depth and inventory) and an
unchanged oracle. -/
theorem c5_invalid_direction (g : Game) (oracle : List RoomResp)
    (direction : String) (cur : Room)
    (hcur : lookupA g.rooms g.current_room = some cur)
    (hdir : lookupA cur.exits direction = none) :
    handle_room_transition g oracle direction = some (cantGoMsg, g, oracle) :=
  handle_room_transition_refused g oracle direction cur hcur hdir

/-- C5 witness: moving up from the demo start room is refused with no
state change. -/
theorem c5_witness :
    handle_room_transition demoGame [] "up" = some (cantGoMsg, demoGame, []) :=
  c5_invalid_direction demoGame [] "up" startRoom rfl rfl

/-- C9: theme-generation failure yields exactly the fixed default theme
and goal; hint-generation failure yields exactly the fixed fallback hint
string; and each of the two functions consumes exactly one oracle
response per call, with no retry. -/
theorem c9_generation_failure_defaults :
    (∀ rest, generate_story_theme (Except.error () :: rest)
       = (("A mysterious adventure",
           "Discover the truth and find your way home"), rest))
    ∧ (∀ oracle : List ThemeResp,
         (generate_story_theme oracle).2 = oracle.drop 1)
    ∧ (∀ (g : Game) (room : Room) (rest : List HintResp),
         lookupA g.rooms g.current_room = some room →
         get_contextual_hint g (Except.error () :: rest)
           = some (fallbackHintMsg, rest))
    ∧ (∀ (g : Game) (room : Room) (oracle : List HintResp),
         lookupA g.rooms g.current_room = some room →
         (get_contextual_hint g oracle).map (fun p => p.2)
           = some (oracle.drop 1)) := by
  refine ⟨fun rest => rfl, fun oracle => ?_, fun g room rest h => ?_,
    fun g room oracle h => ?_⟩
  · cases oracle <;> rfl
  · simp [get_contextual_hint, h, nextResp]
  · cases oracle with
    | nil => simp [get_contextual_hint, h, nextResp]
    | cons r rest => cases r <;> simp [get_contextual_hint, h, nextResp]

/-- C9 witness: a failing hint call in the demo game returns the fixed
fallback hint, and a successful one still consumes exactly one
response. -/
theorem c9_witness :
    get_contextual_hint demoGame [Except.error ()]
      = some (fallbackHintMsg, [])
    ∧ (get_contextual_hint demoGame [Except.ok "try north"]).map
        (fun p => p.2) = some [] := by
  constructor
  · exact c9_generation_failure_defaults.2.2.1 demoGame startRoom [] rfl
  · exact c9_generation_failure_defaults.2.2.2 demoGame startRoom
      [Except.ok "try north"] rfl

/-- C4: when generation fails for an id, the stored room is exactly the
fixed fallback template: two exits forward and back, back targeting
start, the fixed name and the fixed description; and a transition never
removes a realized room, so start stays realized. -/
theorem c4_fallback_navigable (nid : String) :
    generate_room nid (Except.error ()) = create_fallback_room nid
    ∧ (create_fallback_room nid).exits
        = [("forward", nid ++ "_forward"), ("back", "start")]
    ∧ (create_fallback_room nid).name = "Mysterious Chamber"
    ∧ (create_fallback_room nid).description
        = "A mysterious chamber with shifting walls."
    ∧ lookupA (create_fallback_room nid).exits "back" = some "start"
    ∧ (∀ (g : Game) (oracle : List RoomResp),
         lookupA g.rooms nid = none →
         lookupA (realize_room g (Except.error () :: oracle) nid).1.rooms nid
           = some (create_fallback_room nid))
    ∧ (∀ (g : Game) (oracle : List RoomResp) (direction msg : String)
         (g1 : Game) (o1 : List RoomResp),
         handle_room_transition g oracle direction = some (msg, g1, o1) →
         (lookupA g.rooms "start").isSome →
         (lookupA g1.rooms "start").isSome) := by
  refine ⟨rfl, rfl, rfl, rfl, rfl, ?_, ?_⟩
  · intro g oracle h
    rw [realize_room_of_absent g _ nid h]
    simp only [lookupA_dictInsert_self, nextResp, generate_room]
  · intro g oracle direction msg g1 o1 hrun hs
    exact handle_room_transition_mono g oracle direction msg g1 o1 hrun
      "start" hs

/-- C4 witness: a failing generation while moving to the unrealized
start_u in the demo game stores exactly the fallback room, whose back
exit targets start. -/
theorem c4_witness :
    lookupA (realize_room demoGame [Except.error ()] "start_u").1.rooms
        "start_u" = some (create_fallback_room "start_u")
    ∧ lookupA (create_fallback_room "start_u").exits "back" = some "start" :=
  ⟨(c4_fallback_navigable "start_u").2.2.2.2.2.1 demoGame [] rfl,
   (c4_fallback_navigable "start_u").2.2.2.2.1⟩

/-- C2 (amended): the path depth increments by exactly 1 on a transition
whose target id is not yet realized and is unchanged on re-entry to an
already-realized id; the realization of the start room at
initialization does not increment it, so a freshly initialized game has
depth 0 with start realized. -/
theorem c2_depth_increment :
    (∀ (g : Game) (oracle : List RoomResp) (direction : String)
       (cur : Room) (nid : String),
       lookupA g.rooms g.current_room = some cur →
       lookupA cur.exits direction = some nid →
       ((lookupA g.rooms nid = none →
           (handle_room_transition g oracle direction).map
             (fun p => p.2.1.current_path_depth)
             = some (g.current_path_depth + 1))
        ∧ (∀ r : Room, lookupA g.rooms nid = some r →
           (handle_room_transition g oracle direction).map
             (fun p => p.2.1.current_path_depth)
             = some g.current_path_depth)))
    ∧ (∀ (tOracle : List ThemeResp) (rOracle : List RoomResp),
         (init_game tOracle rOracle).1.current_path_depth = 0
         ∧ (lookupA (init_game tOracle rOracle).1.rooms "start").isSome) := by
  constructor
  · intro g oracle direction cur nid hcur hdir
    obtain ⟨msg, g1, heq, -, hdep, -, -⟩ :=
      transition_some g oracle direction cur nid hcur hdir
    constructor
    · intro habs
      rw [heq]
      simp [hdep, realize_room_of_absent g oracle nid habs]
    · intro r hpres
      rw [heq]
      simp [hdep, realize_room_of_present g oracle nid r hpres]
  · intro tO rO
    exact ⟨rfl, by simp [init_game, lookupA_dictInsert_self]⟩

/-- C2 counterexample: initializing a game (here with failing generation,
but any oracle gives the same depth) realizes the start location while
leaving the path depth at 0, so the realization of start at
initialization does not increment the depth as the claim states. -/
theorem c2_counterexample :
    (lookupA (init_game [Except.error ()] [Except.error ()]).1.rooms
        "start").isSome = true
    ∧ (init_game [Except.error ()] [Except.error ()]).1.current_path_depth
        = 0 :=
  ⟨rfl, rfl⟩

/-- C2 witness: in the demo game at depth 3, moving to the unrealized
start_u gives depth 4, re-entering the realized start_n keeps depth 3,
and a fresh game starts at depth 0. -/
theorem c2_witness :
    (handle_room_transition demoGame [Except.error ()] "u").map
        (fun p => p.2.1.current_path_depth) = some 4
    ∧ (handle_room_transition demoGame [] "n").map
        (fun p => p.2.1.current_path_depth) = some 3
    ∧ (init_game [] []).1.current_path_depth = 0 := by
  refine ⟨?_, ?_, (c2_depth_increment.2 [] []).1⟩
  · exact (c2_depth_increment.1 demoGame [Except.error ()] "u" startRoom
      "start_u" rfl rfl).1 rfl
  · exact (c2_depth_increment.1 demoGame [] "n" startRoom "start_n"
      rfl rfl).2 northRoom rfl

/-- C6: `take` semantics.  When the first room item whose lowercased name
equals the given name is takable, it is appended to the inventory and
erased from the room's item list (one copy fewer in the room, and gone
entirely when it occurred once); when it is not takable, the state is
returned unchanged with a refusal message; when nothing matches, the
state is returned unchanged with a not-present message. -/
theorem c6_take_semantics (g : Game) (room : Room) (noun : String)
    (hcur : lookupA g.rooms g.current_room = some room) :
    (∀ item, room.items.find? (fun i => lowerStr i.name = noun) = some item →
       ((item.can_take = true →
           cmd_take g noun = some ("Taken: " ++ item.name,
             { g with inventory := g.inventory ++ [item],
                      rooms := dictInsert g.rooms g.current_room
                                 { room with items := room.items.erase item } })
           ∧ item ∈ g.inventory ++ [item]
           ∧ (room.items.erase item).count item + 1 = room.items.count item
           ∧ (room.items.count item = 1 → item ∉ room.items.erase item))
        ∧ (item.can_take = false →
             cmd_take g noun
               = some ("You can" ++ apos ++ "t take the " ++ item.name ++ ".",
                       g))))
    ∧ (room.items.find? (fun i => lowerStr i.name = noun) = none →
         cmd_take g noun
           = some ("I don" ++ apos ++ "t see a " ++ noun ++ " here.", g)) := by
  constructor
  · intro item hfind
    have hmem : item ∈ room.items := List.mem_of_find?_eq_some hfind
    have hcount := List.count_erase_self item room.items
    have hpos : 0 < room.items.count item := List.count_pos_iff.mpr hmem
    constructor
    · intro htake
      refine ⟨?_, by simp, by omega, ?_⟩
      · simp [cmd_take, hcur, hfind, htake]
      · intro h1 hmem2
        have := List.count_pos_iff.mpr hmem2
        omega
    · intro hno
      simp [cmd_take, hcur, hfind, hno]
  · intro hfind
    simp [cmd_take, hcur, hfind]

/-- C6 witness: in the demo room, taking the lamp moves it to the
inventory and out of the room, taking the boulder is refused with no
state change, and taking an absent sword reports it is not there. -/
theorem c6_witness :
    cmd_take demoGame "lamp" = some ("Taken: " ++ lamp.name,
      { demoGame with inventory := [lamp],
                      rooms := dictInsert demoGame.rooms "start"
                                 { startRoom with
                                   items := startRoom.items.erase lamp } })
    ∧ cmd_take demoGame "boulder"
        = some ("You can" ++ apos ++ "t take the " ++ boulder.name ++ ".",
                demoGame)
    ∧ cmd_take demoGame "sword"
        = some ("I don" ++ apos ++ "t see a sword here.", demoGame) :=
  ⟨(((c6_take_semantics demoGame startRoom "lamp" rfl).1 lamp
       (by decide)).1 rfl).1,
   ((c6_take_semantics demoGame startRoom "boulder" rfl).1 boulder
       (by decide)).2 rfl,
   (c6_take_semantics demoGame startRoom "sword" rfl).2 (by decide)⟩

/-- C7: first-visit-only hints.  Looking at an unvisited room renders the
base parts followed by the hint section (nonempty exactly when the room
has hints) and stores the room with `visited` set to true; looking again
renders only the base parts and leaves the state fixed, so `visited`
stays true and the hints are never shown again. -/
theorem c7_first_visit_hints (g : Game) (room : Room)
    (hcur : lookupA g.rooms g.current_room = some room)
    (hv : room.visited = false) :
    cmd_look g = some
      (String.intercalate "\n" (look_base_parts room ++ look_hint_parts room),
       { g with rooms := dictInsert g.rooms g.current_room
                           { room with visited := true } })
    ∧ lookupA ({ g with rooms := dictInsert g.rooms g.current_room
                          { room with visited := true } }).rooms
        g.current_room = some { room with visited := true }
    ∧ cmd_look { g with rooms := dictInsert g.rooms g.current_room
                          { room with visited := true } }
        = some (String.intercalate "\n" (look_base_parts room),
                { g with rooms := dictInsert g.rooms g.current_room
                                    { room with visited := true } })
    ∧ (look_hint_parts room = [] ↔ room.hints = []) := by
  refine ⟨cmd_look_of_not_visited g room hcur hv, ?_, ?_, ?_⟩
  · simp [lookupA_dictInsert_self]
  · have h2 := cmd_look_of_visited
      { g with rooms := dictInsert g.rooms g.current_room
                          { room with visited := true } }
      { room with visited := true } (by simp [lookupA_dictInsert_self]) rfl
    simpa [look_base_parts_set_visited] using h2
  · by_cases h : room.hints = [] <;> simp [look_hint_parts, h]

/-- C7 witness: looking at the unvisited demo start room shows its hint
section and flips `visited`; a second look shows only the base parts and
changes nothing. -/
theorem c7_witness :
    cmd_look demoGame = some
      (String.intercalate "\n"
         (look_base_parts startRoom ++ look_hint_parts startRoom),
       { demoGame with rooms := dictInsert demoGame.rooms "start"
                                  { startRoom with visited := true } })
    ∧ cmd_look { demoGame with rooms := dictInsert demoGame.rooms "start"
                                  { startRoom with visited := true } }
        = some (String.intercalate "\n" (look_base_parts startRoom),
                { demoGame with rooms := dictInsert demoGame.rooms "start"
                                   { startRoom with visited := true } }) :=
  ⟨(c7_first_visit_hints demoGame startRoom rfl rfl).1,
   (c7_first_visit_hints demoGame startRoom rfl rfl).2.2.1⟩

/-- C8: entering a goal room returns the goal-completion message, which
embeds the session goal description, instead of the look rendering; the
rooms map is only extended and the session continues: any exit of the
goal room still yields a successful later move that ends in that exit's
target room. -/
theorem c8_goal_room (g : Game) (oracle : List RoomResp) (direction : String)
    (cur entered : Room) (nid : String)
    (hcur : lookupA g.rooms g.current_room = some cur)
    (hdir : lookupA cur.exits direction = some nid)
    (hent : lookupA (realize_room g oracle nid).1.rooms nid = some entered)
    (hgoal : entered.is_goal = true) :
    handle_room_transition g oracle direction =
      some (goal_message entered.description g.goal_description,
            { (realize_room g oracle nid).1 with current_room := nid },
            (realize_room g oracle nid).2)
    ∧ (∃ pre post, goal_message entered.description g.goal_description
         = pre ++ g.goal_description ++ post)
    ∧ (∀ (direction2 nid2 : String) (oracle2 : List RoomResp),
         lookupA entered.exits direction2 = some nid2 →
         ∃ msg2 g3 o3,
           handle_room_transition
             { (realize_room g oracle nid).1 with current_room := nid }
             oracle2 direction2 = some (msg2, g3, o3)
           ∧ g3.current_room = nid2) := by
  refine ⟨?_, ?_, ?_⟩
  · have h := handle_room_transition_goal_case g oracle direction cur entered
      nid hcur hdir hent hgoal
    rwa [realize_room_goal_description] at h
  · exact ⟨"\n" ++ entered.description ++ "\n\nCongratulations! ",
      "\n\nYou have completed your quest! Would you like to:\n1. Continue exploring\n2. Start a new adventure (type "
        ++ apos ++ "quit" ++ apos ++ " and restart)\n",
      by simp [goal_message, String.append_assoc]⟩
  · intro direction2 nid2 oracle2 hdir2
    obtain ⟨msg2, g3, heq, hcr, -, -, -⟩ :=
      transition_some { (realize_room g oracle nid).1 with current_room := nid }
        oracle2 direction2 entered nid2 (by simpa using hent) hdir2
    exact ⟨msg2, g3, _, heq, hcr⟩

/-- C8 witness: entering the realized demo goal room returns the
goal-completion message containing the demo goal description, with the
player moved there and the rooms map untouched. -/
theorem c8_witness :
    handle_room_transition demoGame [] "g" =
      some (goal_message goalRoom.description demoGame.goal_description,
            { (realize_room demoGame [] "goalroom").1 with
              current_room := "goalroom" },
            (realize_room demoGame [] "goalroom").2) :=
  (c8_goal_room demoGame [] "g" startRoom goalRoom "goalroom"
    rfl rfl rfl rfl).1

/-- C10: the fallback room is created with `is_goal` and `visited` false,
so a transition that realizes its target through a failed generation
always takes the normal look-rendering branch, never the goal branch. -/
theorem c10_fallback_never_goal (g : Game) (rest : List RoomResp)
    (direction : String) (cur : Room) (nid : String)
    (hcur : lookupA g.rooms g.current_room = some cur)
    (hdir : lookupA cur.exits direction = some nid)
    (habs : lookupA g.rooms nid = none) :
    (create_fallback_room nid).is_goal = false
    ∧ (create_fallback_room nid).visited = false
    ∧ handle_room_transition g (Except.error () :: rest) direction =
        (cmd_look { (realize_room g (Except.error () :: rest) nid).1 with
                    current_room := nid }).map
          (fun p => (p.1, p.2, rest)) := by
  refine ⟨rfl, rfl, ?_⟩
  have hent : lookupA (realize_room g (Except.error () :: rest) nid).1.rooms
      nid = some (create_fallback_room nid) := by
    rw [realize_room_of_absent g _ nid habs]
    simp only [lookupA_dictInsert_self, nextResp, generate_room]
  have horacle : (realize_room g (Except.error () :: rest) nid).2 = rest := by
    rw [realize_room_of_absent g _ nid habs]
    rfl
  rw [handle_room_transition_nongoal_case g (Except.error () :: rest)
    direction cur (create_fallback_room nid) nid hcur hdir hent rfl, horacle]

/-- C10 witness: in the demo game, a failed generation while moving to
start_u yields the normal look rendering of the stored fallback room. -/
theorem c10_witness :
    handle_room_transition demoGame [Except.error ()] "u" =
      (cmd_look { (realize_room demoGame [Except.error ()] "start_u").1 with
                  current_room := "start_u" }).map
        (fun p => (p.1, p.2, [])) :=
  (c10_fallback_never_goal demoGame [] "u" startRoom "start_u"
    rfl rfl rfl).2.2

/-- C1 counterexample: in the demo state, whose current room has an exit
labeled n but none labeled north, the command north is refused while the
command n moves the player to start_n — the long form does not resolve
to the same direction key as its short form, refuting canonicalization. -/
theorem c1_counterexample :
    process_command demoGame [] [] "north"
      = some (cantGoMsg, demoGame, [], [])
    ∧ (process_command demoGame [] [] "n").map (fun p => p.2.1.current_room)
      = some "start_n" :=
  ⟨rfl, rfl⟩

/-- C1 (amended): for every movement command whose first token is one of
n, s, e, w, north, south, east, west, the interpreter delegates to the
navigation controller with that token itself as the direction key; long
and short forms are distinct keys, not synonyms for one canonical
direction. -/
theorem c1_verbatim_delegation (g : Game) (oracle : List RoomResp)
    (hintOracle : List HintResp) (verb : String)
    (hverb : verb ∈ moveVerbs) :
    process_command g oracle hintOracle verb =
      (handle_room_transition g oracle verb).map
        (fun p => (p.1, p.2.1, p.2.2, hintOracle)) := by
  fin_cases hverb <;> rfl

/-- C1 witness: the command w is delegated verbatim in the demo state. -/
theorem c1_witness :
    process_command demoGame [] [] "w" =
      (handle_room_transition demoGame [] "w").map
        (fun p => (p.1, p.2.1, p.2.2, [])) :=
  c1_verbatim_delegation demoGame [] [] "w" (by decide)

end Mud
